import Mathlib

/-!
Verification of the aSAH seizure risk calculator (`src/app.py`).

The scoring engine of the app is four closed-form weighted sums over the
patient inputs, gated by the condition `wfns >= 4`, followed by two-decimal
formatting and assembly of a flat export row.  We embed the engine over the
exact rationals: every decimal coefficient in the Python source (`0.62`,
`0.88`, ...) denotes an exact decimal constant here, and the boolean-to-0/1
conversion (`1 if b else 0`) is mirrored literally.
-/

namespace ASah

/-- The patient input record collected by the sidebar form in `app.py`
(lines 44-72): two bounded integers, one non-negative float, six checkboxes. -/
structure PatientInput where
  wfns : ℤ
  mfisher : ℤ
  crp : ℚ
  ld : Bool
  clipping : Bool
  seizure_early : Bool
  eeg_abnormal : Bool
  hcp : Bool
  ich : Bool
deriving DecidableEq, Repr

/-- Domain constraints enforced by the form widgets: `wfns` in 1..5
(`min_value=1, max_value=5`), `mfisher` in 0..4, `crp >= 0.0`. -/
def PatientInput.Valid (p : PatientInput) : Prop :=
  1 ≤ p.wfns ∧ p.wfns ≤ 5 ∧ 0 ≤ p.mfisher ∧ p.mfisher ≤ 4 ∧ 0 ≤ p.crp

instance (p : PatientInput) : Decidable p.Valid := by
  unfold PatientInput.Valid; infer_instance

/-- `1 if b else 0` (app.py lines 87-92): checkbox booleans enter the
arithmetic as 0 or 1. -/
def boolVal (b : Bool) : ℚ := if b then 1 else 0

/-- Model 1, early seizure, general model (app.py line 97):
`(0.62 * wfns) + (0.88 * mfisher) + (0.07 * crp) + (-1.9 * ld_val) + (1.19 * clipping_val)`. -/
def model1_score (p : PatientInput) : ℚ :=
  (0.62 * (p.wfns : ℚ)) + (0.88 * (p.mfisher : ℚ)) + (0.07 * p.crp)
    + (-1.9 * boolVal p.ld) + (1.19 * boolVal p.clipping)

/-- Model 2, late seizure, general model (app.py line 100):
`(1.75 * wfns) + (1.89 * seizure_early_val)`. -/
def model2_score (p : PatientInput) : ℚ :=
  (1.75 * (p.wfns : ℚ)) + (1.89 * boolVal p.seizure_early)

/-- Model 3, early seizure, WFNS 4-5 model (app.py line 128):
`(1.47 * wfns) + (1.13 * mfisher) + (1.92 * eeg_abnormal_val)`. -/
def model3_score (p : PatientInput) : ℚ :=
  (1.47 * (p.wfns : ℚ)) + (1.13 * (p.mfisher : ℚ)) + (1.92 * boolVal p.eeg_abnormal)

/-- Model 4, late seizure, WFNS 4-5 model (app.py line 129):
`(2.83 * wfns) + (1.18 * mfisher) + (2.81 * hcp_val) + (1.63 * ich_val) + (1.48 * seizure_early_val)`. -/
def model4_score (p : PatientInput) : ℚ :=
  (2.83 * (p.wfns : ℚ)) + (1.18 * (p.mfisher : ℚ)) + (2.81 * boolVal p.hcp)
    + (1.63 * boolVal p.ich) + (1.48 * boolVal p.seizure_early)

/-- The result record produced by one press of the Calculate button:
models 1 and 2 are always computed; models 3 and 4 only inside the
`if wfns >= 4` branch (app.py lines 124-129), absent otherwise. -/
structure ScoreResult where
  model1 : ℚ
  model2 : ℚ
  model3 : Option ℚ
  model4 : Option ℚ
deriving DecidableEq, Repr

/-- The calculation block of `app.py` (lines 83-129): models 1 and 2
unconditionally, models 3 and 4 exactly when `wfns >= 4`. -/
def calculate (p : PatientInput) : ScoreResult :=
  if p.wfns ≥ 4 then
    { model1 := model1_score p
      model2 := model2_score p
      model3 := some (model3_score p)
      model4 := some (model4_score p) }
  else
    { model1 := model1_score p
      model2 := model2_score p
      model3 := none
      model4 := none }

/-- The character for a decimal digit `n < 10`. -/
def digitChar (n : ℕ) : Char := Char.ofNat (48 + n)

/-- Auxiliary for `natDigits`: `fuel` bounds the recursion depth. -/
def natDigitsGo : ℕ → ℕ → List Char
  | 0, _ => []
  | _ + 1, 0 => []
  | fuel + 1, m + 1 =>
      natDigitsGo fuel ((m + 1) / 10) ++ [digitChar ((m + 1) % 10)]

/-- Decimal rendering of a natural number, most significant digit first. -/
def natDigits : ℕ → List Char
  | 0 => ['0']
  | n + 1 => natDigitsGo (n + 1) (n + 1)

/-- Round a rational to the nearest integer, ties to even: the rounding mode
used by Python's `format` when the value formatted is an exact tie. -/
def roundHalfEven (q : ℚ) : ℤ :=
  let f := ⌊q⌋
  let r := q - (f : ℚ)
  if r < 1 / 2 then f
  else if 1 / 2 < r then f + 1
  else if f % 2 = 0 then f else f + 1

/-- The Python `.2f` format specifier (app.py lines 111, 116, 135,
140, 148-151): the value rounded to two decimal places (nearest, ties to
even) and rendered with exactly two digits after the decimal point. -/
def format2 (q : ℚ) : String :=
  let n : ℤ := roundHalfEven (q * 100)
  let sign : String := if n < 0 then "-" else ""
  let m : ℕ := n.natAbs
  sign ++ String.mk (natDigits (m / 100))
    ++ "." ++ String.mk [digitChar (m % 100 / 10), digitChar (m % 100 % 10)]

/-- One cell of the export row: the Python `results_data` dict holds the raw
integer inputs, the raw float CRP input, and strings (the two-decimal score
renderings and the `N/A` sentinel). -/
inductive Cell where
  | intCell : ℤ → Cell
  | ratCell : ℚ → Cell
  | strCell : String → Cell
deriving DecidableEq, Repr

/-- The `results_data` record built for the CSV download (app.py lines
144-152 for `wfns >= 4`, lines 158-166 otherwise): one flat row of thirteen
named columns, in source order. -/
def results_data (p : PatientInput) : List (String × Cell) :=
  if p.wfns ≥ 4 then
    [ ("Input_WFNS", Cell.intCell p.wfns)
    , ("Input_mFisher", Cell.intCell p.mfisher)
    , ("Input_CRP", Cell.ratCell p.crp)
    , ("Input_LD", Cell.intCell (if p.ld then 1 else 0))
    , ("Input_Clipping", Cell.intCell (if p.clipping then 1 else 0))
    , ("Input_EarlySeizure", Cell.intCell (if p.seizure_early then 1 else 0))
    , ("Input_EEG_Abnormal", Cell.intCell (if p.eeg_abnormal then 1 else 0))
    , ("Input_HCP", Cell.intCell (if p.hcp then 1 else 0))
    , ("Input_ICH", Cell.intCell (if p.ich then 1 else 0))
    , ("Model1_Early_General_Score", Cell.strCell (format2 (model1_score p)))
    , ("Model2_Late_General_Score", Cell.strCell (format2 (model2_score p)))
    , ("Model3_Early_WFNS4-5_Score", Cell.strCell (format2 (model3_score p)))
    , ("Model4_Late_WFNS4-5_Score", Cell.strCell (format2 (model4_score p))) ]
  else
    [ ("Input_WFNS", Cell.intCell p.wfns)
    , ("Input_mFisher", Cell.intCell p.mfisher)
    , ("Input_CRP", Cell.ratCell p.crp)
    , ("Input_LD", Cell.intCell (if p.ld then 1 else 0))
    , ("Input_Clipping", Cell.intCell (if p.clipping then 1 else 0))
    , ("Input_EarlySeizure", Cell.intCell (if p.seizure_early then 1 else 0))
    , ("Input_EEG_Abnormal", Cell.intCell (if p.eeg_abnormal then 1 else 0))
    , ("Input_HCP", Cell.intCell (if p.hcp then 1 else 0))
    , ("Input_ICH", Cell.intCell (if p.ich then 1 else 0))
    , ("Model1_Early_General_Score", Cell.strCell (format2 (model1_score p)))
    , ("Model2_Late_General_Score", Cell.strCell (format2 (model2_score p)))
    , ("Model3_Early_WFNS4-5_Score", Cell.strCell "N/A")
    , ("Model4_Late_WFNS4-5_Score", Cell.strCell "N/A") ]

/-- Look up a column's cell in the export row by column name. -/
def getCell (row : List (String × Cell)) (col : String) : Option Cell :=
  (row.find? (fun e => e.1 = col)).map Prod.snd

/-- Property checker: the string has a decimal point followed by exactly two
characters, both decimal digits. -/
def twoDecimalPlaces (s : String) : Bool :=
  match s.data.reverse with
  | d0 :: d1 :: c :: _ => d0.isDigit && d1.isDigit && (c = '.')
  | _ => false

/-- Spec scenario A: wfns=1, modifiedFisher=0, crp=10.0, all booleans false. -/
def scenarioA : PatientInput :=
  ⟨1, 0, 10, false, false, false, false, false, false⟩

/-- Spec scenario B: wfns=5, modifiedFisher=4, crp=0.0, all booleans true. -/
def scenarioB : PatientInput :=
  ⟨5, 4, 0, true, true, true, true, true, true⟩

/-- A mid-range input used to witness the noninterference statement. -/
def scenarioC : PatientInput :=
  ⟨2, 1, 3, true, false, true, false, false, false⟩

/-- `scenarioC` with the three inputs irrelevant to models 1 and 2 flipped. -/
def scenarioD : PatientInput :=
  ⟨2, 1, 3, true, false, true, true, true, true⟩

theorem calculate_model1 (p : PatientInput) : (calculate p).model1 = model1_score p := by
  unfold calculate; split <;> rfl

theorem calculate_model2 (p : PatientInput) : (calculate p).model2 = model2_score p := by
  unfold calculate; split <;> rfl

theorem format2_contains_dot (q : ℚ) : '.' ∈ (format2 q).data := by
  unfold format2
  simp [String.data_append]

theorem format2_ne_NA (q : ℚ) : format2 q ≠ "N/A" := by
  intro h
  have hd := format2_contains_dot q
  rw [h] at hd
  revert hd
  decide

theorem digitChar_isDigit (n : ℕ) (h : n < 10) : (digitChar n).isDigit = true := by
  interval_cases n <;> decide

theorem format2_twoDecimalPlaces (q : ℚ) : twoDecimalPlaces (format2 q) = true := by
  unfold format2 twoDecimalPlaces
  simp only [String.data_append]
  have hmk : ∀ l : List Char, (String.mk l).data = l := fun _ => rfl
  rw [hmk]
  simp only [List.reverse_append, List.reverse_cons, List.reverse_nil]
  simp only [List.nil_append, List.cons_append, List.singleton_append]
  have h1 : ((roundHalfEven (q * 100)).natAbs % 100 % 10) < 10 :=
    Nat.mod_lt _ (by norm_num)
  have h2 : ((roundHalfEven (q * 100)).natAbs % 100 / 10) < 10 := by
    have : (roundHalfEven (q * 100)).natAbs % 100 < 100 := Nat.mod_lt _ (by norm_num)
    omega
  simp [digitChar_isDigit _ h1, digitChar_isDigit _ h2]

/-- C1 For every valid PatientInput, model3 and model4 are computed if and
only if wfns >= 4, and when wfns < 4 the model3 and model4 export fields are
the literal sentinel N/A, which is distinct from every formatted number;
model1 and model2 are computed in both cases. -/
theorem c1_model34_applicability (p : PatientInput) (h : p.Valid) :
    ((calculate p).model3.isSome = true ↔ 4 ≤ p.wfns)
    ∧ ((calculate p).model4.isSome = true ↔ 4 ≤ p.wfns)
    ∧ (p.wfns < 4 →
        getCell (results_data p) "Model3_Early_WFNS4-5_Score" = some (Cell.strCell "N/A")
        ∧ getCell (results_data p) "Model4_Late_WFNS4-5_Score" = some (Cell.strCell "N/A")
        ∧ ∀ q : ℚ, format2 q ≠ "N/A")
    ∧ (calculate p).model1 = model1_score p
    ∧ (calculate p).model2 = model2_score p := by
  by_cases h4 : 4 ≤ p.wfns
  · refine ⟨?_, ?_, ?_, calculate_model1 p, calculate_model2 p⟩
    · simp [calculate, h4]
    · simp [calculate, h4]
    · intro hlt; omega
  · refine ⟨?_, ?_, ?_, calculate_model1 p, calculate_model2 p⟩
    · simp [calculate, h4]
    · simp [calculate, h4]
    · intro _
      refine ⟨?_, ?_, fun q => format2_ne_NA q⟩
      · simp [getCell, results_data, h4, List.find?]
      · simp [getCell, results_data, h4, List.find?]

/-- Witness for C1 at scenario A (wfns = 1). -/
theorem c1_model34_applicability_witness :
    scenarioA.Valid
    ∧ (((calculate scenarioA).model3.isSome = true ↔ 4 ≤ scenarioA.wfns)
    ∧ ((calculate scenarioA).model4.isSome = true ↔ 4 ≤ scenarioA.wfns)
    ∧ (scenarioA.wfns < 4 →
        getCell (results_data scenarioA) "Model3_Early_WFNS4-5_Score"
          = some (Cell.strCell "N/A")
        ∧ getCell (results_data scenarioA) "Model4_Late_WFNS4-5_Score"
          = some (Cell.strCell "N/A")
        ∧ ∀ q : ℚ, format2 q ≠ "N/A")
    ∧ (calculate scenarioA).model1 = model1_score scenarioA
    ∧ (calculate scenarioA).model2 = model2_score scenarioA) :=
  ⟨by decide, c1_model34_applicability scenarioA (by decide)⟩

/-- C2 For every valid PatientInput, the model 1 score equals
0.62*wfns + 0.88*modifiedFisher + 0.07*crp - 1.9*lumbarDrain
+ 1.19*surgicalClipping, booleans contributing as 0 or 1. -/
theorem c2_model1_formula (p : PatientInput) (h : p.Valid) :
    (calculate p).model1
      = 0.62 * (p.wfns : ℚ) + 0.88 * (p.mfisher : ℚ) + 0.07 * p.crp
        - 1.9 * (if p.ld then (1 : ℚ) else 0)
        + 1.19 * (if p.clipping then (1 : ℚ) else 0) := by
  rw [calculate_model1]
  unfold model1_score boolVal
  ring

/-- Witness for C2 at scenario B. -/
theorem c2_model1_formula_witness :
    scenarioB.Valid
    ∧ (calculate scenarioB).model1
      = 0.62 * (scenarioB.wfns : ℚ) + 0.88 * (scenarioB.mfisher : ℚ)
        + 0.07 * scenarioB.crp - 1.9 * (if scenarioB.ld then (1 : ℚ) else 0)
        + 1.19 * (if scenarioB.clipping then (1 : ℚ) else 0) :=
  ⟨by decide, c2_model1_formula scenarioB (by decide)⟩

/-- C3 For every valid PatientInput, the model 2 score equals
1.75*wfns + 1.89*earlySeizureHistory, the boolean contributing as 0 or 1. -/
theorem c3_model2_formula (p : PatientInput) (h : p.Valid) :
    (calculate p).model2
      = 1.75 * (p.wfns : ℚ) + 1.89 * (if p.seizure_early then (1 : ℚ) else 0) := by
  rw [calculate_model2]
  unfold model2_score boolVal
  ring

/-- Witness for C3 at scenario A. -/
theorem c3_model2_formula_witness :
    scenarioA.Valid
    ∧ (calculate scenarioA).model2
      = 1.75 * (scenarioA.wfns : ℚ)
        + 1.89 * (if scenarioA.seizure_early then (1 : ℚ) else 0) :=
  ⟨by decide, c3_model2_formula scenarioA (by decide)⟩

/-- C4 For every valid PatientInput with wfns in 4..5, the model 3 score is
present and equals 1.47*wfns + 1.13*modifiedFisher + 1.92*eegAbnormal within
tolerance 1e-9 (exactly, in this exact-rational embedding). -/
theorem c4_model3_formula (p : PatientInput) (h : p.Valid)
    (hw : p.wfns = 4 ∨ p.wfns = 5) :
    ∃ r : ℚ, (calculate p).model3 = some r
      ∧ |r - (1.47 * (p.wfns : ℚ) + 1.13 * (p.mfisher : ℚ)
          + 1.92 * (if p.eeg_abnormal then (1 : ℚ) else 0))| ≤ 0.000000001 := by
  have h4 : 4 ≤ p.wfns := by rcases hw with h | h <;> omega
  refine ⟨model3_score p, ?_, ?_⟩
  · simp [calculate, h4]
  · have hz : model3_score p - (1.47 * (p.wfns : ℚ) + 1.13 * (p.mfisher : ℚ)
        + 1.92 * (if p.eeg_abnormal then (1 : ℚ) else 0)) = 0 := by
      unfold model3_score boolVal; ring
    rw [hz]
    norm_num

/-- Witness for C4 at scenario B (wfns = 5). -/
theorem c4_model3_formula_witness :
    scenarioB.Valid ∧ (scenarioB.wfns = 4 ∨ scenarioB.wfns = 5)
    ∧ ∃ r : ℚ, (calculate scenarioB).model3 = some r
      ∧ |r - (1.47 * (scenarioB.wfns : ℚ) + 1.13 * (scenarioB.mfisher : ℚ)
          + 1.92 * (if scenarioB.eeg_abnormal then (1 : ℚ) else 0))| ≤ 0.000000001 :=
  ⟨by decide, by decide, c4_model3_formula scenarioB (by decide) (by decide)⟩

/-- C5 For every valid PatientInput with wfns in 4..5, the model 4 score is
present and equals 2.83*wfns + 1.18*modifiedFisher + 2.81*chronicHydrocephalus
+ 1.63*intracerebralHemorrhage + 1.48*earlySeizureHistory within tolerance
1e-9 (exactly, in this exact-rational embedding). -/
theorem c5_model4_formula (p : PatientInput) (h : p.Valid)
    (hw : p.wfns = 4 ∨ p.wfns = 5) :
    ∃ r : ℚ, (calculate p).model4 = some r
      ∧ |r - (2.83 * (p.wfns : ℚ) + 1.18 * (p.mfisher : ℚ)
          + 2.81 * (if p.hcp then (1 : ℚ) else 0)
          + 1.63 * (if p.ich then (1 : ℚ) else 0)
          + 1.48 * (if p.seizure_early then (1 : ℚ) else 0))| ≤ 0.000000001 := by
  have h4 : 4 ≤ p.wfns := by rcases hw with h | h <;> omega
  refine ⟨model4_score p, ?_, ?_⟩
  · simp [calculate, h4]
  · have hz : model4_score p - (2.83 * (p.wfns : ℚ) + 1.18 * (p.mfisher : ℚ)
        + 2.81 * (if p.hcp then (1 : ℚ) else 0)
        + 1.63 * (if p.ich then (1 : ℚ) else 0)
        + 1.48 * (if p.seizure_early then (1 : ℚ) else 0)) = 0 := by
      unfold model4_score boolVal; ring
    rw [hz]
    norm_num

/-- Witness for C5 at scenario B (wfns = 5). -/
theorem c5_model4_formula_witness :
    scenarioB.Valid ∧ (scenarioB.wfns = 4 ∨ scenarioB.wfns = 5)
    ∧ ∃ r : ℚ, (calculate scenarioB).model4 = some r
      ∧ |r - (2.83 * (scenarioB.wfns : ℚ) + 1.18 * (scenarioB.mfisher : ℚ)
          + 2.81 * (if scenarioB.hcp then (1 : ℚ) else 0)
          + 1.63 * (if scenarioB.ich then (1 : ℚ) else 0)
          + 1.48 * (if scenarioB.seizure_early then (1 : ℚ) else 0))| ≤ 0.000000001 :=
  ⟨by decide, by decide, c5_model4_formula scenarioB (by decide) (by decide)⟩

/-- C6 Concrete scenarios: scenario A yields model1 = 1.32, model2 = 1.75 and
model3/model4 = N/A; scenario B yields model1 = 5.91, model2 = 10.64,
model3 = 13.79, model4 = 24.79. -/
theorem c6_concrete_scenarios :
    (calculate scenarioA).model1 = 1.32
    ∧ (calculate scenarioA).model2 = 1.75
    ∧ (calculate scenarioA).model3 = none
    ∧ (calculate scenarioA).model4 = none
    ∧ getCell (results_data scenarioA) "Model3_Early_WFNS4-5_Score"
        = some (Cell.strCell "N/A")
    ∧ getCell (results_data scenarioA) "Model4_Late_WFNS4-5_Score"
        = some (Cell.strCell "N/A")
    ∧ (calculate scenarioB).model1 = 5.91
    ∧ (calculate scenarioB).model2 = 10.64
    ∧ (calculate scenarioB).model3 = some 13.79
    ∧ (calculate scenarioB).model4 = some 24.79 := by
  have hA : ¬ (4 : ℤ) ≤ scenarioA.wfns := by norm_num [scenarioA]
  have hB : (4 : ℤ) ≤ scenarioB.wfns := by norm_num [scenarioB]
  refine ⟨?_, ?_, ?_, ?_, ?_, ?_, ?_, ?_, ?_, ?_⟩
  · rw [calculate_model1]; norm_num [scenarioA, model1_score, boolVal]
  · rw [calculate_model2]; norm_num [scenarioA, model2_score, boolVal]
  · simp [calculate, hA]
  · simp [calculate, hA]
  · simp [getCell, results_data, hA, List.find?]
  · simp [getCell, results_data, hA, List.find?]
  · rw [calculate_model1]; norm_num [scenarioB, model1_score, boolVal]
  · rw [calculate_model2]; norm_num [scenarioB, model2_score, boolVal]
  · simp [calculate, hB, model3_score, scenarioB, boolVal]; norm_num
  · simp [calculate, hB, model4_score, scenarioB, boolVal]; norm_num

/-- C7 The scoring computation is deterministic and side-effect free: two
invocations on identical inputs produce identical results and export rows. -/
theorem c7_deterministic (p q : PatientInput) (h : p.Valid) (heq : p = q) :
    calculate p = calculate q ∧ results_data p = results_data q := by
  subst heq
  exact ⟨rfl, rfl⟩

/-- Witness for C7 at scenario A. -/
theorem c7_deterministic_witness :
    scenarioA.Valid ∧ scenarioA = scenarioA
    ∧ (calculate scenarioA = calculate scenarioA
       ∧ results_data scenarioA = results_data scenarioA) :=
  ⟨by decide, rfl, c7_deterministic scenarioA scenarioA (by decide) rfl⟩

/-- C8 For every valid PatientInput, the export row has exactly the thirteen
columns in the specified order, and the last two columns hold the literal
sentinel N/A exactly when wfns < 4. -/
theorem c8_export_row (p : PatientInput) (h : p.Valid) :
    (results_data p).map Prod.fst
      = ["Input_WFNS", "Input_mFisher", "Input_CRP", "Input_LD",
         "Input_Clipping", "Input_EarlySeizure", "Input_EEG_Abnormal",
         "Input_HCP", "Input_ICH", "Model1_Early_General_Score",
         "Model2_Late_General_Score", "Model3_Early_WFNS4-5_Score",
         "Model4_Late_WFNS4-5_Score"]
    ∧ ((getCell (results_data p) "Model3_Early_WFNS4-5_Score"
          = some (Cell.strCell "N/A")
        ∧ getCell (results_data p) "Model4_Late_WFNS4-5_Score"
          = some (Cell.strCell "N/A"))
       ↔ p.wfns < 4) := by
  by_cases h4 : 4 ≤ p.wfns
  · refine ⟨by simp [results_data, h4], ?_, ?_⟩
    · rintro ⟨h3, -⟩
      simp [getCell, results_data, h4, List.find?] at h3
      exact absurd h3 (format2_ne_NA _)
    · intro hlt; omega
  · refine ⟨by simp [results_data, h4], ?_, ?_⟩
    · intro _; omega
    · intro _
      constructor <;> simp [getCell, results_data, h4, List.find?]

/-- Witness for C8 at scenario B (wfns = 5). -/
theorem c8_export_row_witness :
    scenarioB.Valid
    ∧ ((results_data scenarioB).map Prod.fst
      = ["Input_WFNS", "Input_mFisher", "Input_CRP", "Input_LD",
         "Input_Clipping", "Input_EarlySeizure", "Input_EEG_Abnormal",
         "Input_HCP", "Input_ICH", "Model1_Early_General_Score",
         "Model2_Late_General_Score", "Model3_Early_WFNS4-5_Score",
         "Model4_Late_WFNS4-5_Score"]
    ∧ ((getCell (results_data scenarioB) "Model3_Early_WFNS4-5_Score"
          = some (Cell.strCell "N/A")
        ∧ getCell (results_data scenarioB) "Model4_Late_WFNS4-5_Score"
          = some (Cell.strCell "N/A"))
       ↔ scenarioB.wfns < 4)) :=
  ⟨by decide, c8_export_row scenarioB (by decide)⟩

/-- C9 Models 1 and 2 do not depend on eegAbnormal, chronicHydrocephalus or
intracerebralHemorrhage: two valid inputs agreeing on the other six fields
get identical model 1 and model 2 scores. -/
theorem c9_model12_noninterference (p q : PatientInput)
    (hp : p.Valid) (hq : q.Valid)
    (hw : p.wfns = q.wfns) (hm : p.mfisher = q.mfisher) (hc : p.crp = q.crp)
    (hl : p.ld = q.ld) (hcl : p.clipping = q.clipping)
    (hs : p.seizure_early = q.seizure_early) :
    (calculate p).model1 = (calculate q).model1
    ∧ (calculate p).model2 = (calculate q).model2 := by
  rw [calculate_model1, calculate_model1, calculate_model2, calculate_model2]
  unfold model1_score model2_score
  rw [hw, hm, hc, hl, hcl, hs]
  exact ⟨rfl, rfl⟩

/-- Witness for C9: scenario C and scenario D differ exactly in the three
irrelevant booleans. -/
theorem c9_model12_noninterference_witness :
    scenarioC.Valid ∧ scenarioD.Valid
    ∧ scenarioC.eeg_abnormal ≠ scenarioD.eeg_abnormal
    ∧ scenarioC.hcp ≠ scenarioD.hcp
    ∧ scenarioC.ich ≠ scenarioD.ich
    ∧ ((calculate scenarioC).model1 = (calculate scenarioD).model1
       ∧ (calculate scenarioC).model2 = (calculate scenarioD).model2) :=
  ⟨by decide, by decide, by decide, by decide, by decide,
   c9_model12_noninterference scenarioC scenarioD (by decide) (by decide)
     rfl rfl rfl rfl rfl rfl⟩

/-- C10 Every score written into the export row is the two-decimal
formatting of the full-precision score, and every such formatted string has
exactly two digits after the decimal point. -/
theorem c10_export_two_decimals (p : PatientInput) (h : p.Valid) :
    getCell (results_data p) "Model1_Early_General_Score"
      = some (Cell.strCell (format2 (model1_score p)))
    ∧ getCell (results_data p) "Model2_Late_General_Score"
      = some (Cell.strCell (format2 (model2_score p)))
    ∧ (4 ≤ p.wfns →
        getCell (results_data p) "Model3_Early_WFNS4-5_Score"
          = some (Cell.strCell (format2 (model3_score p)))
        ∧ getCell (results_data p) "Model4_Late_WFNS4-5_Score"
          = some (Cell.strCell (format2 (model4_score p))))
    ∧ ∀ q : ℚ, twoDecimalPlaces (format2 q) = true := by
  refine ⟨?_, ?_, ?_, fun q => format2_twoDecimalPlaces q⟩
  · by_cases h4 : 4 ≤ p.wfns <;> simp [getCell, results_data, h4, List.find?]
  · by_cases h4 : 4 ≤ p.wfns <;> simp [getCell, results_data, h4, List.find?]
  · intro h4
    constructor <;> simp [getCell, results_data, h4, List.find?]

/-- Witness for C10 at scenario B. -/
theorem c10_export_two_decimals_witness :
    scenarioB.Valid
    ∧ (getCell (results_data scenarioB) "Model1_Early_General_Score"
      = some (Cell.strCell (format2 (model1_score scenarioB)))
    ∧ getCell (results_data scenarioB) "Model2_Late_General_Score"
      = some (Cell.strCell (format2 (model2_score scenarioB)))
    ∧ (4 ≤ scenarioB.wfns →
        getCell (results_data scenarioB) "Model3_Early_WFNS4-5_Score"
          = some (Cell.strCell (format2 (model3_score scenarioB)))
        ∧ getCell (results_data scenarioB) "Model4_Late_WFNS4-5_Score"
          = some (Cell.strCell (format2 (model4_score scenarioB))))
    ∧ ∀ q : ℚ, twoDecimalPlaces (format2 q) = true) :=
  ⟨by decide, c10_export_two_decimals scenarioB (by decide)⟩

end ASah
